import Mathlib

/-!
# GluckoTrack (blood-glucose log): shallow embedding of `src/project.py`

The core of the program is three pieces (spec §2):
* the classifier `get_state` (project.py lines 39-46),
* the record store `save_new_reading` / `load_data` (lines 52-90),
* the monthly aggregator `get_monthly_summary_data` (lines 105-153).

Modelling choices:
* Python floats are modelled as exact rationals `ℚ` (the program does only
  comparisons, sums, divisions, min and max on them).
* A CSV text field is modelled by the structure `Cell`: its raw text
  together with the results of the two partial parses the program applies
  to fields, Python `float(text)` and
  `datetime.strptime(text, "%Y-%m-%d %H:%M:%S")`.  A parse result `none`
  means the corresponding Python call raises `ValueError`.
* The backing file `data.csv` is `Option (List Row)`: `none` is a
  non-existent file, `some rows` an existing file holding those CSV rows
  (`some []` is an existing empty file, `os.stat(...).st_size == 0`).
* An unexpected I/O exception inside the `try` blocks of `load_data` /
  `save_new_reading` is made explicit as a boolean argument `ioError`.
-/

/-- Result of `datetime.strptime(text, "%Y-%m-%d %H:%M:%S")` when it
succeeds: a calendar date-time with second precision. -/
structure DateTime where
  year : ℕ
  month : ℕ
  day : ℕ
  hour : ℕ
  minute : ℕ
  second : ℕ
deriving DecidableEq, Repr

/-- One comma-delimited CSV field, abstracted by its raw text and by the
two partial parses the program performs on fields: `asFloat` is the result
of Python `float(text)` (`none` when that raises `ValueError`), `asTime`
the result of `datetime.strptime(text, "%Y-%m-%d %H:%M:%S")` (`none` when
that raises `ValueError`). -/
structure Cell where
  text : String
  asFloat : Option ℚ := none
  asTime : Option DateTime := none
deriving DecidableEq, Repr

/-- A CSV row: the list of its fields, as produced by `csv.reader`. -/
abbrev Row := List Cell

/-- A plain text field such as a header cell or a stored range label:
parses neither as a float nor as a timestamp. -/
def txtCell (s : String) : Cell := { text := s }

/-- The field `csv.writer` emits for a float `q`: `str(q)`, whose
`float(...)` parse recovers `q` exactly (Python float `repr` round-trips)
and which never parses as a `%Y-%m-%d %H:%M:%S` timestamp.  The `text`
component stands in for Python's decimal rendering; only the `asFloat`
round-trip is relied on. -/
def floatCell (q : ℚ) : Cell := { text := toString q, asFloat := some q }

/-- Constant `NORMAL_BS_MIN = 70` (project.py line 9). -/
def NORMAL_BS_MIN : ℚ := 70

/-- Constant `NORMAL_BS_MAX = 139` (project.py line 10). -/
def NORMAL_BS_MAX : ℚ := 139

/-- Constant `HEADERS = ["Timestamp", "Blood Glucose (mg/dL)", "State"]`
(project.py line 12). -/
def HEADERS : List String := ["Timestamp", "Blood Glucose (mg/dL)", "State"]

/-- The header row `csv.writer` emits for `HEADERS`. -/
def headerRow : Row := HEADERS.map txtCell

/-- Function `get_state` (project.py lines 39-46): classify a blood-sugar reading
into `"Low"`, `"Normal"` or `"High"`. -/
def get_state (blood_sugar_reading : ℚ) : String :=
  if blood_sugar_reading < NORMAL_BS_MIN then
    "Low"
  else if NORMAL_BS_MIN ≤ blood_sugar_reading ∧ blood_sugar_reading ≤ NORMAL_BS_MAX then
    "Normal"
  else
    "High"

/-- A row as returned by `load_data`: the original row with its field at
index 1 replaced by the parsed float (`row[1] = float(row[1])`,
project.py line 67).  `ts` is `row[0]`, `value` the parsed `row[1]`,
`rest` the untouched tail `row[2:]` (kept whole: `load_data` keeps any
extra fields). -/
structure LoadedRow where
  ts : Cell
  value : ℚ
  rest : List Cell
deriving DecidableEq, Repr

/-- The body of the row loop of `load_data` (project.py lines 65-71) for
one CSV row: `row[1] = float(row[1]); data.append(row)`, with the row
skipped (`none`) when `float(row[1])` raises `ValueError` or `row[1]`
raises `IndexError` (fewer than two fields). -/
def loadRow : Row → Option LoadedRow
  | f0 :: f1 :: rest =>
    match f1.asFloat with
    | some q => some ⟨f0, q, rest⟩
    | none => none
  | _ => none

/-- Function `load_data` (project.py lines 52-75).  `store` is the state of
`DATA_FILE` (`none`: does not exist); `ioError` models an unexpected
exception inside the `try` block (caught at lines 73-75, returning `[]`).
A non-existent or empty file yields `[]` (lines 55-56); otherwise the
first row is consumed as the header (line 61; a mismatch only prints a
warning) and each remaining row is parsed by `loadRow`. -/
def load_data (store : Option (List Row)) (ioError : Bool) : List LoadedRow :=
  match store with
  | none => []
  | some [] => []
  | some (_header :: dataRows) =>
    if ioError then [] else dataRows.filterMap loadRow

/-- The data row `save_new_reading` writes:
`writer.writerow([timestamp, blood_sugar, state])` (project.py line 87). -/
def savedRow (blood_sugar : ℚ) (state timestamp : Cell) : Row :=
  [timestamp, floatCell blood_sugar, state]

/-- Function `save_new_reading` (project.py lines 77-90).  Returns the new state of
`DATA_FILE`.  The header is written first iff the file does not exist or
is empty (lines 79-80, 85-86); opening in mode `"a"` creates the file and
appends one data row.  `ioError` models an exception inside the `try`
block (caught at lines 89-90): the operation is abandoned and the store
left unchanged. -/
def save_new_reading (blood_sugar : ℚ) (state timestamp : Cell)
    (store : Option (List Row)) (ioError : Bool) : Option (List Row) :=
  if ioError then store
  else
    let rows := store.getD []
    let file_is_empty := rows.isEmpty
    some (if file_is_empty then [headerRow, savedRow blood_sugar state timestamp]
          else rows ++ [savedRow blood_sugar state timestamp])

/-- A finite sequence of readings appended in order via `save_new_reading`
(no I/O errors): each element is `(blood_sugar, state, timestamp)`. -/
def appendAll (readings : List (ℚ × Cell × Cell)) (store : Option (List Row)) :
    Option (List Row) :=
  readings.foldl (fun st r => save_new_reading r.1 r.2.1 r.2.2 st false) store

/-- The filtering loop of `get_monthly_summary_data` (project.py lines
113-121) applied to one loaded row: parse `row[0]` as a timestamp
(`strptime`, line 116; a `ValueError` skips the row, lines 119-121) and
keep `row[1]` when year and month both match (lines 117-118).  On rows
produced by `load_data`, `row[0]` and `row[1]` always exist, so the
caught `IndexError` cannot arise here. -/
def monthFilter (year month : ℕ) (row : LoadedRow) : Option ℚ :=
  match row.ts.asTime with
  | none => none
  | some dt => if dt.year = year ∧ dt.month = month then some row.value else none

/-- One iteration of the state-counting loop of
`get_monthly_summary_data` (project.py lines 134-141): the accumulator is
`(normal_count, low_count, high_count)`. -/
def tallyStep (acc : ℕ × ℕ × ℕ) (bs_value : ℚ) : ℕ × ℕ × ℕ :=
  let state := get_state bs_value
  if state = "Normal" then (acc.1 + 1, acc.2.1, acc.2.2)
  else if state = "Low" then (acc.1, acc.2.1 + 1, acc.2.2)
  else (acc.1, acc.2.1, acc.2.2 + 1)

/-- The state-counting loop of `get_monthly_summary_data` (project.py
lines 130-141): returns `(normal_count, low_count, high_count)`,
all three counters starting at 0. -/
def tallyStates (monthly_readings : List ℚ) : ℕ × ℕ × ℕ :=
  monthly_readings.foldl tallyStep (0, 0, 0)

/-- The dictionary `get_monthly_summary_data` returns
(project.py lines 145-153). -/
structure Summary where
  avg : ℚ
  min : ℚ
  max : ℚ
  normal_count : ℕ
  low_count : ℕ
  high_count : ℕ
  total_readings : ℕ
deriving DecidableEq, Repr

/-- Function `get_monthly_summary_data` (project.py lines 105-153), parameterised
by the loaded reading set `all_data` (in the source, `all_data =
load_data()`, line 110).  Filter to the queried month (lines 113-121);
`None` if nothing matches (lines 123-124); otherwise the mean, min and
max of the filtered values (`statistics.mean`, `min`, `max`, lines
126-128) and the three state counts (lines 130-141). -/
def get_monthly_summary_data (all_data : List LoadedRow) (year month : ℕ) :
    Option Summary :=
  let monthly_readings := all_data.filterMap (monthFilter year month)
  match monthly_readings with
  | [] => none
  | x :: xs =>
    let counts := tallyStates (x :: xs)
    some { avg := (x :: xs).sum / (x :: xs).length
           min := xs.foldl Min.min x
           max := xs.foldl Max.max x
           normal_count := counts.1
           low_count := counts.2.1
           high_count := counts.2.2
           total_readings := (x :: xs).length }

/-- One append's arguments, packaged: `(blood_sugar, state, timestamp)`
bundled into the CSV row `save_new_reading` writes for them. -/
def mkRow (r : ℚ × Cell × Cell) : Row := savedRow r.1 r.2.1 r.2.2

/-- The `LoadedRow` that reading back the row written for
`(blood_sugar, state, timestamp)` produces. -/
def loadedOf (r : ℚ × Cell × Cell) : LoadedRow := ⟨r.2.2, r.1, [r.2.1]⟩

/-- Timestamp cell for a concrete date-time (its text parses under
`strptime` and not under `float`). -/
def tsCell (y mo d h mi s : ℕ) (txt : String) : Cell :=
  { text := txt, asTime := some ⟨y, mo, d, h, mi, s⟩ }

/-- The reading set of the worked example (spec §8 and
`test_monthly_summary_calculations`): five January 2025 readings with
values 90, 150, 65, 110, 140, one February 2025 reading and one
December 2024 reading. -/
def exampleReadings : List LoadedRow :=
  [⟨tsCell 2025 1 5 8 0 0 "2025-01-05 08:00:00", 90, [txtCell "Normal"]⟩,
   ⟨tsCell 2025 1 10 12 0 0 "2025-01-10 12:00:00", 150, [txtCell "High"]⟩,
   ⟨tsCell 2025 1 15 18 0 0 "2025-01-15 18:00:00", 65, [txtCell "Low"]⟩,
   ⟨tsCell 2025 1 20 9 0 0 "2025-01-20 09:00:00", 110, [txtCell "Normal"]⟩,
   ⟨tsCell 2025 1 25 7 0 0 "2025-01-25 07:00:00", 140, [txtCell "High"]⟩,
   ⟨tsCell 2025 2 1 10 0 0 "2025-02-01 10:00:00", 120, [txtCell "Normal"]⟩,
   ⟨tsCell 2024 12 1 10 0 0 "2024-12-01 10:00:00", 80, [txtCell "Normal"]⟩]

/-- The same readings with every stored range label corrupted (all set to
`"Low"`): timestamps and values agree with `exampleReadings`. -/
def relabeledReadings : List LoadedRow :=
  exampleReadings.map (fun r => ⟨r.ts, r.value, [txtCell "Low"]⟩)

-- Helper lemmas on the store operations.

theorem save_new_reading_empty (bs : ℚ) (st ts : Cell) (store : Option (List Row))
    (h : store.getD [] = []) :
    save_new_reading bs st ts store false = some [headerRow, savedRow bs st ts] := by
  simp [save_new_reading, h]

theorem save_new_reading_nonempty (bs : ℚ) (st ts : Cell) (row0 : Row) (rows : List Row) :
    save_new_reading bs st ts (some (row0 :: rows)) false =
      some (row0 :: (rows ++ [savedRow bs st ts])) := by
  simp [save_new_reading]

theorem appendAll_cons_store (rs : List (ℚ × Cell × Cell)) (row0 : Row) (rows : List Row) :
    appendAll rs (some (row0 :: rows)) = some (row0 :: (rows ++ rs.map mkRow)) := by
  induction rs generalizing rows with
  | nil => simp [appendAll]
  | cons r rs ih =>
    show appendAll rs (save_new_reading r.1 r.2.1 r.2.2 (some (row0 :: rows)) false) = _
    rw [save_new_reading_nonempty, ih]
    simp [mkRow]

theorem appendAll_from_empty (rs : List (ℚ × Cell × Cell)) (store : Option (List Row))
    (hstore : store.getD [] = []) (r0 : ℚ × Cell × Cell) (rtl : List (ℚ × Cell × Cell))
    (hrs : rs = r0 :: rtl) :
    appendAll rs store = some (headerRow :: rs.map mkRow) := by
  subst hrs
  show appendAll rtl (save_new_reading r0.1 r0.2.1 r0.2.2 store false) = _
  rw [save_new_reading_empty _ _ _ _ hstore, appendAll_cons_store]
  simp [savedRow, mkRow]

theorem loadRow_mkRow (r : ℚ × Cell × Cell) : loadRow (mkRow r) = some (loadedOf r) := rfl

theorem filterMap_loadRow_mkRow (rs : List (ℚ × Cell × Cell)) :
    (rs.map mkRow).filterMap loadRow = rs.map loadedOf := by
  induction rs with
  | nil => rfl
  | cons r rs ih => simp [ih, loadRow_mkRow]

theorem get_state_cases (v : ℚ) :
    get_state v = "Low" ∨ get_state v = "Normal" ∨ get_state v = "High" := by
  unfold get_state
  split_ifs <;> simp

theorem tallyStep_sum (a : ℕ × ℕ × ℕ) (v : ℚ) :
    (tallyStep a v).1 + (tallyStep a v).2.1 + (tallyStep a v).2.2 =
      a.1 + a.2.1 + a.2.2 + 1 := by
  unfold tallyStep
  dsimp only
  split_ifs <;> simp <;> omega

theorem tallyStates_go (l : List ℚ) (a : ℕ × ℕ × ℕ) :
    (l.foldl tallyStep a).1 + (l.foldl tallyStep a).2.1 + (l.foldl tallyStep a).2.2 =
      a.1 + a.2.1 + a.2.2 + l.length := by
  induction l generalizing a with
  | nil => simp
  | cons x xs ih =>
    simp only [List.foldl_cons, List.length_cons]
    rw [ih, tallyStep_sum]
    omega

theorem tallyStates_sum (l : List ℚ) :
    (tallyStates l).1 + (tallyStates l).2.1 + (tallyStates l).2.2 = l.length := by
  simpa using tallyStates_go l (0, 0, 0)

/-- Claim C1: for every value v, `get_state v` is `"Low"` iff v < 70,
`"Normal"` iff 70 <= v <= 139 and `"High"` iff v > 139; it always returns
exactly one of the three labels, and both boundary values 70 and 139 are
classified `"Normal"`. -/
theorem C1_classifier_correct :
    (∀ v : ℚ,
      (get_state v = "Low" ↔ v < 70) ∧
      (get_state v = "Normal" ↔ 70 ≤ v ∧ v ≤ 139) ∧
      (get_state v = "High" ↔ 139 < v) ∧
      (get_state v = "Low" ∨ get_state v = "Normal" ∨ get_state v = "High")) ∧
    get_state 70 = "Normal" ∧ get_state 139 = "Normal" := by
  refine ⟨fun v => ?_, by decide, by decide⟩
  unfold get_state NORMAL_BS_MIN NORMAL_BS_MAX
  split_ifs with h1 h2
  · refine ⟨by simp [h1], ?_, ?_, Or.inl rfl⟩ <;> constructor <;> intro h
    · exact absurd h (by decide)
    · linarith [h.1]
    · exact absurd h (by decide)
    · linarith
  · obtain ⟨h2a, h2b⟩ := h2
    refine ⟨?_, by simp [h2a, h2b], ?_, Or.inr (Or.inl rfl)⟩ <;> constructor <;> intro h
    · exact absurd h (by decide)
    · linarith
    · exact absurd h (by decide)
    · linarith
  · push_neg at h1 h2
    have h3 : 139 < v := h2 h1
    refine ⟨?_, ?_, by simp [h3], Or.inr (Or.inr rfl)⟩ <;> constructor <;> intro h
    · exact absurd h (by decide)
    · linarith
    · exact absurd h (by decide)
    · linarith [h.2]

theorem load_data_headed (hdr : Row) (dataRows : List Row) :
    load_data (some (hdr :: dataRows)) false = dataRows.filterMap loadRow := rfl

/-- Claim C2: round trip.  Appending a sequence of readings via
`save_new_reading` to a non-existent (or empty) store and then loading
yields exactly the appended readings, one per append, in append order,
with each value equal numerically and each timestamp and range label
equal as text; appending to an already headed store appends the same
readings after the previously loadable ones. -/
theorem C2_round_trip (readings : List (ℚ × Cell × Cell)) :
    (load_data (appendAll readings none) false = readings.map loadedOf ∧
     load_data (appendAll readings (some [])) false = readings.map loadedOf) ∧
    (∀ i : ℕ, ∀ hi : i < readings.length,
      ∀ hj : i < (load_data (appendAll readings none) false).length,
      ((load_data (appendAll readings none) false).get ⟨i, hj⟩).value =
          (readings.get ⟨i, hi⟩).1 ∧
      ((load_data (appendAll readings none) false).get ⟨i, hj⟩).ts.text =
          (readings.get ⟨i, hi⟩).2.2.text ∧
      ((load_data (appendAll readings none) false).get ⟨i, hj⟩).rest.map Cell.text =
          [(readings.get ⟨i, hi⟩).2.1.text]) ∧
    ∀ (hdr : Row) (dataRows : List Row),
      load_data (appendAll readings (some (hdr :: dataRows))) false =
        load_data (some (hdr :: dataRows)) false ++ readings.map loadedOf := by
  have key : ∀ store : Option (List Row), store.getD [] = [] →
      load_data (appendAll readings store) false = readings.map loadedOf := by
    intro store hstore
    match readings with
    | [] =>
      cases store with
      | none => simp [appendAll, load_data]
      | some rows => simp_all [appendAll, load_data]
    | r0 :: rtl =>
      rw [appendAll_from_empty _ _ hstore r0 rtl rfl, load_data_headed,
        filterMap_loadRow_mkRow]
  refine ⟨⟨key none rfl, key (some []) rfl⟩, ?_, ?_⟩
  · intro i hi hj
    have hmap : load_data (appendAll readings none) false = readings.map loadedOf :=
      key none rfl
    simp_all [loadedOf, List.get_eq_getElem]
  · intro hdr dataRows
    rw [appendAll_cons_store, load_data_headed, load_data_headed,
      List.filterMap_append, filterMap_loadRow_mkRow]

/-- Claim C3: the monthly summary includes exactly the readings whose
timestamp year and month equal the query; on the worked example (Jan 2025
values 90, 150, 65, 110, 140 plus one Feb 2025 and one Dec 2024 reading)
the (2025, 1) summary has total 5, avg 111, min 65, max 150 and counts
normal 2, low 1, high 2. -/
theorem C3_monthly_summary_example :
    exampleReadings.filterMap (monthFilter 2025 1) = [90, 150, 65, 110, 140] ∧
    get_monthly_summary_data exampleReadings 2025 1 =
      some { avg := 111, min := 65, max := 150,
             normal_count := 2, low_count := 1, high_count := 2,
             total_readings := 5 } := by
  have hf : exampleReadings.filterMap (monthFilter 2025 1) = [90, 150, 65, 110, 140] := rfl
  refine ⟨hf, ?_⟩
  unfold get_monthly_summary_data
  rw [hf]
  norm_num [tallyStates, tallyStep, get_state, NORMAL_BS_MIN, NORMAL_BS_MAX,
    min_def, max_def]
  decide

/-- A data row with only two fields: a valid timestamp text and a numeric
value text, but no third (state) field. -/
def twoFieldRow : Row := [tsCell 2025 1 1 0 0 0 "2025-01-01 00:00:00", floatCell 90]

/-- Claim C4 counterexample: the claim says every data row with fewer than the
expected three fields is skipped on load, but `load_data` only skips a row
when `row[1]` is missing or fails to parse; this two-field row is kept. -/
theorem C4_two_field_row_kept :
    twoFieldRow.length < 3 ∧
    load_data (some [headerRow, twoFieldRow]) false =
      [⟨tsCell 2025 1 1 0 0 0 "2025-01-01 00:00:00", 90, []⟩] := by
  exact ⟨by decide, rfl⟩

/-- Claim C4 (amended): on load, a row is skipped exactly when it has fewer than
two fields or its value field (index 1) fails to parse as a real number;
a row with a missing field 1 raises the caught `IndexError`, an
unparseable field 1 the caught `ValueError`; skipping such a row never
drops the surrounding rows; any row with at least two fields whose value
field parses is kept (even with only two fields). -/
theorem C4_skip_malformed_rows (hdr bad : Row) (pre post : List Row)
    (hbad : loadRow bad = none) (f0 f1 : Cell) (rest : List Cell) :
    load_data (some (hdr :: (pre ++ bad :: post))) false =
      load_data (some (hdr :: (pre ++ post))) false ∧
    loadRow [] = none ∧
    loadRow [f0] = none ∧
    loadRow (f0 :: f1 :: rest) = f1.asFloat.map (fun q => ⟨f0, q, rest⟩) := by
  refine ⟨?_, rfl, rfl, ?_⟩
  · simp [load_data_headed, List.filterMap_append, List.filterMap_cons, hbad]
  · cases hf : f1.asFloat <;> simp [loadRow, hf]

/-- Claim C4 witness: the amended statement at a concrete malformed row and a
concrete well-formed row. -/
theorem C4_skip_malformed_rows_witness :
    load_data (some (headerRow :: ([] ++ [txtCell "oops"] :: []))) false =
      load_data (some (headerRow :: ([] ++ []))) false ∧
    loadRow [] = none ∧
    loadRow [txtCell "a"] = none ∧
    loadRow (txtCell "a" :: floatCell 95 :: []) =
      (floatCell 95).asFloat.map (fun q => ⟨txtCell "a", q, []⟩) :=
  C4_skip_malformed_rows headerRow [txtCell "oops"] [] [] rfl
    (txtCell "a") (floatCell 95) []

theorem exampleSummary_eval :
    get_monthly_summary_data exampleReadings 2025 1 =
      some { avg := 111, min := 65, max := 150,
             normal_count := 2, low_count := 1, high_count := 2,
             total_readings := 5 } := by
  unfold get_monthly_summary_data
  rw [show exampleReadings.filterMap (monthFilter 2025 1) = [90, 150, 65, 110, 140] from rfl]
  norm_num [tallyStates, tallyStep, get_state, NORMAL_BS_MIN, NORMAL_BS_MAX,
    min_def, max_def]
  decide

/-- Claim C5: whenever `get_monthly_summary_data` returns a summary,
normal_count + low_count + high_count = total_readings, and
total_readings is the size of the month-filtered set. -/
theorem C5_counts_sum_to_total (all_data : List LoadedRow) (year month : ℕ)
    (s : Summary) (h : get_monthly_summary_data all_data year month = some s) :
    s.normal_count + s.low_count + s.high_count = s.total_readings ∧
    s.total_readings = (all_data.filterMap (monthFilter year month)).length := by
  unfold get_monthly_summary_data at h
  cases hm : all_data.filterMap (monthFilter year month) with
  | nil => rw [hm] at h; simp at h
  | cons x xs =>
    rw [hm] at h
    simp only [Option.some.injEq] at h
    subst h
    refine ⟨?_, rfl⟩
    exact tallyStates_sum (x :: xs)

/-- Claim C5 witness: the invariant instantiated on the worked example
for (2025, 1). -/
theorem C5_counts_sum_to_total_witness :
    2 + 1 + 2 = 5 ∧
    5 = (exampleReadings.filterMap (monthFilter 2025 1)).length :=
  C5_counts_sum_to_total exampleReadings 2025 1
    { avg := 111, min := 65, max := 150,
      normal_count := 2, low_count := 1, high_count := 2, total_readings := 5 }
    exampleSummary_eval

theorem monthFilter_eq_none_iff (year month : ℕ) (row : LoadedRow) :
    monthFilter year month row = none ↔
      ∀ dt, row.ts.asTime = some dt → ¬(dt.year = year ∧ dt.month = month) := by
  unfold monthFilter
  cases h : row.ts.asTime with
  | none => simp
  | some dt =>
    dsimp only
    split_ifs with hc <;> simp_all

/-- Claim C6: `get_monthly_summary_data` returns the absent sentinel
(`none`) iff the set of readings whose parseable timestamp matches the
queried (year, month) is empty. -/
theorem C6_absent_iff_no_match (all_data : List LoadedRow) (year month : ℕ) :
    (get_monthly_summary_data all_data year month = none ↔
      all_data.filterMap (monthFilter year month) = []) ∧
    (get_monthly_summary_data all_data year month = none ↔
      ∀ row ∈ all_data, ∀ dt, row.ts.asTime = some dt →
        ¬(dt.year = year ∧ dt.month = month)) := by
  have h1 : get_monthly_summary_data all_data year month = none ↔
      all_data.filterMap (monthFilter year month) = [] := by
    unfold get_monthly_summary_data
    cases hm : all_data.filterMap (monthFilter year month) <;> simp [hm]
  refine ⟨h1, h1.trans ?_⟩
  rw [List.filterMap_eq_nil_iff]
  constructor
  · intro h row hrow dt hdt
    exact ((monthFilter_eq_none_iff year month row).1 (h row hrow)) dt hdt
  · intro h row hrow
    exact (monthFilter_eq_none_iff year month row).2 (h row hrow)

/-- Claim C6 witness: the absent sentinel on a month with no matching
readings. -/
theorem C6_absent_iff_no_match_witness :
    get_monthly_summary_data exampleReadings 2025 3 = none :=
  (C6_absent_iff_no_match exampleReadings 2025 3).1.mpr rfl

/-- Claim C7: appending N (at least one) readings to a non-existent or
empty store leaves exactly one header row followed by exactly N data
rows, none of which equals the header row; writing to a non-empty store
appends exactly one data row and no header. -/
theorem C7_header_once (r0 : ℚ × Cell × Cell) (rtl : List (ℚ × Cell × Cell)) :
    appendAll (r0 :: rtl) none = some (headerRow :: (r0 :: rtl).map mkRow) ∧
    appendAll (r0 :: rtl) (some []) = some (headerRow :: (r0 :: rtl).map mkRow) ∧
    ((r0 :: rtl).map mkRow).length = rtl.length + 1 ∧
    headerRow ∉ (r0 :: rtl).map mkRow ∧
    save_new_reading r0.1 r0.2.1 r0.2.2 none false =
      some [headerRow, savedRow r0.1 r0.2.1 r0.2.2] ∧
    ∀ (bs : ℚ) (st ts : Cell) (row0 : Row) (rows : List Row),
      save_new_reading bs st ts (some (row0 :: rows)) false =
        some (row0 :: (rows ++ [savedRow bs st ts])) := by
  refine ⟨appendAll_from_empty _ none rfl r0 rtl rfl,
    appendAll_from_empty _ (some []) rfl r0 rtl rfl,
    by simp, ?_, save_new_reading_empty _ _ _ none rfl,
    fun bs st ts row0 rows => save_new_reading_nonempty bs st ts row0 rows⟩
  intro hmem
  obtain ⟨r, _, heq⟩ := List.mem_map.1 hmem
  simp [mkRow, savedRow, headerRow, HEADERS, txtCell, floatCell, Cell.mk.injEq] at heq

/-- Claim C8: loading from a non-existent or empty store returns the
empty sequence rather than an error, and an unexpected storage-level
error during load also degrades to an empty result. -/
theorem C8_load_degrades_to_empty :
    (∀ e : Bool, load_data none e = []) ∧
    (∀ e : Bool, load_data (some []) e = []) ∧
    (∀ store : Option (List Row), load_data store true = []) := by
  refine ⟨fun e => rfl, fun e => rfl, fun store => ?_⟩
  match store with
  | none => rfl
  | some [] => rfl
  | some (hdr :: dataRows) => simp [load_data]

/-- Projection of a loaded row onto the data the aggregator reads:
`row[0]` (timestamp text) and `row[1]` (value); `row[2:]`, which carries
the stored range label, is dropped. -/
def tsValue (r : LoadedRow) : Cell × ℚ := (r.ts, r.value)

theorem filterMap_monthFilter_congr (year month : ℕ) (d1 d2 : List LoadedRow)
    (h : d1.map tsValue = d2.map tsValue) :
    d1.filterMap (monthFilter year month) = d2.filterMap (monthFilter year month) := by
  induction d1 generalizing d2 with
  | nil =>
    cases d2 with
    | nil => rfl
    | cons b bs => simp at h
  | cons a as ih =>
    cases d2 with
    | nil => simp at h
    | cons b bs =>
      simp only [List.map_cons, List.cons.injEq] at h
      obtain ⟨hab, hrest⟩ := h
      have hone : monthFilter year month a = monthFilter year month b := by
        unfold monthFilter
        rw [show a.ts = b.ts from congrArg Prod.fst hab,
          show a.value = b.value from congrArg Prod.snd hab]
      simp only [List.filterMap_cons, hone, ih bs hrest]

/-- Claim C9: the summary counts re-run the classifier over the filtered
values rather than trusting stored labels: two reading sets agreeing on
all timestamps and values (and differing arbitrarily in the stored
`row[2:]` tail, which holds the range label) yield identical summaries
for every (year, month). -/
theorem C9_labels_not_trusted (d1 d2 : List LoadedRow)
    (h : d1.map tsValue = d2.map tsValue) (year month : ℕ) :
    get_monthly_summary_data d1 year month = get_monthly_summary_data d2 year month := by
  unfold get_monthly_summary_data
  rw [filterMap_monthFilter_congr year month d1 d2 h]

/-- Claim C9 witness: the worked example and its label-corrupted copy
give the same (2025, 1) summary. -/
theorem C9_labels_not_trusted_witness :
    get_monthly_summary_data exampleReadings 2025 1 =
      get_monthly_summary_data relabeledReadings 2025 1 :=
  C9_labels_not_trusted exampleReadings relabeledReadings rfl 2025 1

/-- Claim C10: every row returned by `load_data` carries a numeric value
that is the successful `float` parse of field index 1 of some stored data
row, so every consumer of the result is guaranteed a numeric value
field. -/
theorem C10_values_are_numeric_parses (store : Option (List Row)) (e : Bool)
    (r : LoadedRow) (hr : r ∈ load_data store e) :
    ∃ (hdr : Row) (dataRows : List Row) (row : Row) (f : Cell),
      store = some (hdr :: dataRows) ∧ row ∈ dataRows ∧
      row.get? 1 = some f ∧ f.asFloat = some r.value ∧ loadRow row = some r := by
  match store with
  | none => simp [load_data] at hr
  | some [] => simp [load_data] at hr
  | some (hdr :: dataRows) =>
    cases e with
    | true => simp [load_data] at hr
    | false =>
      rw [load_data_headed] at hr
      obtain ⟨row, hrow, hload⟩ := List.mem_filterMap.1 hr
      refine ⟨hdr, dataRows, row, ?_⟩
      match row, hload with
      | f0 :: f1 :: rest, hload =>
        cases hf : f1.asFloat with
        | none => rw [show loadRow (f0 :: f1 :: rest) = none by simp [loadRow, hf]] at hload; exact absurd hload (by simp)
        | some q =>
          have hload2 : loadRow (f0 :: f1 :: rest) = some r := hload
          rw [show loadRow (f0 :: f1 :: rest) = some ⟨f0, q, rest⟩ by simp [loadRow, hf]] at hload2
          simp only [Option.some.injEq] at hload2
          exact ⟨f1, rfl, hrow, rfl, by rw [hf, ← hload2], hload⟩

/-- Claim C2 witness: the round trip at one concrete appended reading. -/
theorem C2_round_trip_witness :
    load_data (appendAll [((95 : ℚ), txtCell "Normal",
        tsCell 2025 1 1 10 0 0 "2025-01-01 10:00:00")] none) false =
      [((95 : ℚ), txtCell "Normal",
        tsCell 2025 1 1 10 0 0 "2025-01-01 10:00:00")].map loadedOf :=
  (C2_round_trip [((95 : ℚ), txtCell "Normal",
    tsCell 2025 1 1 10 0 0 "2025-01-01 10:00:00")]).1.1

/-- A one-reading store used to witness the value-provenance property. -/
def demoStore : Option (List Row) :=
  some [headerRow,
    savedRow 95 (txtCell "Normal") (tsCell 2025 1 1 10 0 0 "2025-01-01 10:00:00")]

/-- The loaded row the demo store yields. -/
def demoLoaded : LoadedRow :=
  ⟨tsCell 2025 1 1 10 0 0 "2025-01-01 10:00:00", 95, [txtCell "Normal"]⟩

/-- Claim C10 witness: the provenance of the loaded value in the demo
store. -/
theorem C10_values_are_numeric_parses_witness :
    ∃ (hdr : Row) (dataRows : List Row) (row : Row) (f : Cell),
      demoStore = some (hdr :: dataRows) ∧ row ∈ dataRows ∧
      row.get? 1 = some f ∧ f.asFloat = some demoLoaded.value ∧
      loadRow row = some demoLoaded :=
  C10_values_are_numeric_parses demoStore false demoLoaded
    (List.mem_singleton.mpr rfl)
